import Mathlib

/-!
Verification of the secured-air-api tiered access-control core.

The definitions below are a shallow embedding of the TypeScript services
`AirlinesService`, `AirportsService` and `RoutesService`, of `JwtManager`,
and of the `requireFeature` middleware and the routers' `getUserTier`
helper.  Record sets are passed explicitly (the classes load them once at
startup from CSV files; the loading itself is out of scope), tiers are the
enum's string values, JavaScript objects used as string-keyed maps are
association lists in insertion order, and thrown `Error`s are `Except.error`
carrying the exact message string.
-/

namespace SecuredAir

/-- The single-quote character, used inside the service error messages. -/
def quoteChar : String := Char.toString (Char.ofNat 39)

/-- Code-unit comparison of two characters, as JavaScript compares strings. -/
def charLt (a b : Char) : Bool := a.val.toNat < b.val.toNat

/-- Lexicographic code-unit order on character lists: the order the default
JavaScript `Array.prototype.sort` comparator induces on strings. -/
def charsLe : List Char → List Char → Bool
  | [], _ => true
  | _ :: _, [] => false
  | a :: as, b :: bs => if a = b then charsLe as bs else charLt a b

/-- Lexicographic order on strings (JavaScript default sort order). -/
def strLe (x y : String) : Bool := charsLe x.toList y.toList

/-- Insert a string into an already sorted list, keeping it sorted. -/
def insertSorted (c : String) : List String → List String
  | [] => [c]
  | d :: l => if strLe c d then c :: d :: l else d :: insertSorted c l

/-- Model of `array.sort()` on an array of strings: a stable sort by the
default lexicographic comparator.  On the duplicate-free key lists the
services sort, any correct sort returns this same list. -/
def sortStrings (l : List String) : List String := l.foldr insertSorted []

/-- Model of `String.prototype.split` with a single-character separator,
on the character list of the string. -/
def splitChars (sep : Char) : List Char → List (List Char)
  | [] => [[]]
  | c :: rest =>
    match splitChars sep rest with
    | [] => [[c]]
    | h :: t => if c = sep then [] :: h :: t else (c :: h) :: t

/-- Model of `s.split(sep)` for a one-character separator. -/
def splitOnChar (sep : Char) (s : String) : List String :=
  (splitChars sep s.toList).map String.mk

/-- One step of JavaScript `Set.prototype.add`: append the element at the
end unless it is already present (a `Set` keeps insertion order). -/
def insertIfAbsent (acc : List String) (c : String) : List String :=
  if acc.contains c then acc else acc ++ [c]

/-- Model of `[...new Set(xs)]`: the distinct elements of `xs` in first
occurrence order. -/
def setDedup (l : List String) : List String := l.foldl insertIfAbsent []

/-- One step of the `reduce` the services group with: append the record at
the end of the list bound to `k`, or append a new singleton binding for `k`
at the end when no binding exists (JavaScript object keys keep insertion
order for these non-numeric country names). -/
def addToGroup {α : Type} (acc : List (String × List α)) (k : String) (r : α) :
    List (String × List α) :=
  match acc with
  | [] => [(k, [r])]
  | (k2, l) :: rest =>
    if k2 = k then (k2, l ++ [r]) :: rest else (k2, l) :: addToGroup rest k r

/-- One `reduce` step: records whose grouping key fails `keep` are skipped. -/
def groupStep {α : Type} (key : α → String) (keep : String → Bool)
    (acc : List (String × List α)) (r : α) : List (String × List α) :=
  if keep (key r) then addToGroup acc (key r) r else acc

/-- The grouping `reduce` shared (by textual duplication in the source) by
`groupAirlinesByCountry`, `groupAirportsByCountry` and
`groupRoutesBySourceCountry`. -/
def groupByCountryKey {α : Type} (key : α → String) (keep : String → Bool)
    (rs : List α) : List (String × List α) :=
  rs.foldl (groupStep key keep) []

/-- The FREE tier's configured country list (identical in all three services). -/
def freeCountries : List String := ["Israel"]

/-- The PRO tier's configured country list (identical in all three services). -/
def proCountries : List String :=
  ["Israel", "United States", "Canada", "United Kingdom", "Germany", "France",
   "Australia", "Japan", "Brazil", "China", "India"]

/-- The `tierConfigurations` table, identical in all three services:
`some (some cs)` is a list policy, `some none` is `countries: null`
(ELITE, unrestricted), and `none` models `this.tierConfigurations[tier]`
being `undefined` for a string outside the enum. -/
def tierConfig (tier : String) : Option (Option (List String)) :=
  if tier = "free" then some (some freeCountries)
  else if tier = "pro" then some (some proCountries)
  else if tier = "elite" then some none
  else none

/-- The message `Invalid subscription tier: <tier>`. -/
def invalidTierMsg (tier : String) : String := "Invalid subscription tier: " ++ tier

/-- The message `Country '<country>' is not accessible with <tier> tier`. -/
def notAccessibleMsg (country tier : String) : String :=
  "Country " ++ quoteChar ++ country ++ quoteChar ++ " is not accessible with "
    ++ tier ++ " tier"

/-- The message `Access to routes between '<src>' and '<dst>' requires a higher subscription tier`. -/
def pairDeniedMsg (src dst : String) : String :=
  "Access to routes between " ++ quoteChar ++ src ++ quoteChar ++ " and "
    ++ quoteChar ++ dst ++ quoteChar ++ " requires a higher subscription tier"

/-- An airline record as parsed from `airlines.csv`. -/
structure Airline where
  name : String
  iata : String
  icao : String
  callsign : String
  country : String
  active : String
deriving DecidableEq, Repr

/-- An airport record as parsed from `airports.csv`. -/
structure Airport where
  name : String
  city : String
  country : String
  iata : String
  icao : String
  latitude : String
  longitude : String
  altitude : String
  timezone : String
  dst : String
  timezoneDb : String
deriving DecidableEq, Repr

/-- A route record as parsed from `routes.csv`. -/
structure Route where
  airline : String
  airlineId : String
  sourceAirport : String
  sourceAirportId : String
  destinationAirport : String
  destinationAirportId : String
  codeshare : String
  stops : String
  equipment : String
deriving DecidableEq, Repr

/-- A route enriched with the countries resolved from the airport-country
index (`RouteWithCountries`). -/
structure RouteWithCountries extends Route where
  sourceCountry : String
  destinationCountry : String
deriving DecidableEq, Repr

namespace AirlinesService

/-- Embeds `AirlinesService.groupAirlinesByCountry`: group by the `country` field,
skipping records with a falsy (empty) country. -/
def groupAirlinesByCountry (airlines : List Airline) : List (String × List Airline) :=
  groupByCountryKey (fun a => a.country) (fun k => !(k == "")) airlines

/-- Embeds `AirlinesService.getAirlinesByTier`. -/
def getAirlinesByTier (airlines : List Airline) (tier : String) :
    Except String (List (String × List Airline)) :=
  match tierConfig tier with
  | none => Except.error (invalidTierMsg tier)
  | some none => Except.ok (groupAirlinesByCountry airlines)
  | some (some cs) =>
    Except.ok (groupAirlinesByCountry (airlines.filter (fun a => cs.contains a.country)))

/-- Embeds `AirlinesService.getAirlinesByCountry`. -/
def getAirlinesByCountry (airlines : List Airline) (tier country : String) :
    Except String (List Airline) :=
  match tierConfig tier with
  | none => Except.error (invalidTierMsg tier)
  | some none => Except.ok (airlines.filter (fun a => a.country == country))
  | some (some cs) =>
    if !(cs.contains country) then Except.error (notAccessibleMsg country tier)
    else Except.ok (airlines.filter (fun a => a.country == country))

/-- Embeds `AirlinesService.getAccessibleCountries`. -/
def getAccessibleCountries (airlines : List Airline) (tier : String) :
    Except String (List String) :=
  match tierConfig tier with
  | none => Except.error (invalidTierMsg tier)
  | some none => Except.ok (sortStrings (setDedup (airlines.map (fun a => a.country))))
  | some (some cs) => Except.ok cs

/-- The record returned by `AirlinesService.getTierStatistics`. -/
structure TierStatistics where
  totalAirlines : Nat
  totalCountries : Nat
  countriesWithData : List String
deriving DecidableEq, Repr

/-- Embeds `AirlinesService.getTierStatistics`. -/
def getTierStatistics (airlines : List Airline) (tier : String) :
    Except String TierStatistics :=
  match getAirlinesByTier airlines tier with
  | Except.error e => Except.error e
  | Except.ok g =>
    Except.ok { totalAirlines := (g.map (fun kl => kl.2)).flatten.length
              , totalCountries := (g.map (fun kl => kl.1)).length
              , countriesWithData := sortStrings (g.map (fun kl => kl.1)) }

/-- Embeds `AirlinesService.hasCountryAccess`: note the `false` (not a thrown
error) when the tier is missing from the table. -/
def hasCountryAccess (tier country : String) : Bool :=
  match tierConfig tier with
  | none => false
  | some none => true
  | some (some cs) => cs.contains country

end AirlinesService

namespace AirportsService

/-- Embeds `AirportsService.groupAirportsByCountry`. -/
def groupAirportsByCountry (airports : List Airport) : List (String × List Airport) :=
  groupByCountryKey (fun a => a.country) (fun k => !(k == "")) airports

/-- Embeds `AirportsService.getAirportsByTier`. -/
def getAirportsByTier (airports : List Airport) (tier : String) :
    Except String (List (String × List Airport)) :=
  match tierConfig tier with
  | none => Except.error (invalidTierMsg tier)
  | some none => Except.ok (groupAirportsByCountry airports)
  | some (some cs) =>
    Except.ok (groupAirportsByCountry (airports.filter (fun a => cs.contains a.country)))

/-- Embeds `AirportsService.getAirportsByCountry`. -/
def getAirportsByCountry (airports : List Airport) (tier country : String) :
    Except String (List Airport) :=
  match tierConfig tier with
  | none => Except.error (invalidTierMsg tier)
  | some none => Except.ok (airports.filter (fun a => a.country == country))
  | some (some cs) =>
    if !(cs.contains country) then Except.error (notAccessibleMsg country tier)
    else Except.ok (airports.filter (fun a => a.country == country))

/-- Embeds `AirportsService.getAccessibleCountries`. -/
def getAccessibleCountries (airports : List Airport) (tier : String) :
    Except String (List String) :=
  match tierConfig tier with
  | none => Except.error (invalidTierMsg tier)
  | some none => Except.ok (sortStrings (setDedup (airports.map (fun a => a.country))))
  | some (some cs) => Except.ok cs

/-- The record returned by `AirportsService.getTierStatistics`. -/
structure TierStatistics where
  totalAirports : Nat
  totalCountries : Nat
  countriesWithData : List String
deriving DecidableEq, Repr

/-- Embeds `AirportsService.getTierStatistics`. -/
def getTierStatistics (airports : List Airport) (tier : String) :
    Except String TierStatistics :=
  match getAirportsByTier airports tier with
  | Except.error e => Except.error e
  | Except.ok g =>
    Except.ok { totalAirports := (g.map (fun kl => kl.2)).flatten.length
              , totalCountries := (g.map (fun kl => kl.1)).length
              , countriesWithData := sortStrings (g.map (fun kl => kl.1)) }

/-- Embeds `AirportsService.hasCountryAccess`. -/
def hasCountryAccess (tier country : String) : Bool :=
  match tierConfig tier with
  | none => false
  | some none => true
  | some (some cs) => cs.contains country

end AirportsService

namespace RoutesService

/-- Embeds `this.airportCountryMap.get(code) || 'Unknown'`: the airport-country
index lookup, with any falsy result (missing entry or empty string)
replaced by `"Unknown"`. -/
def resolveCountry (m : List (String × String)) (code : String) : String :=
  match m.lookup code with
  | none => "Unknown"
  | some c => if c = "" then "Unknown" else c

/-- Embeds `RoutesService.getRouteWithCountries`. -/
def getRouteWithCountries (m : List (String × String)) (r : Route) : RouteWithCountries :=
  { toRoute := r
  , sourceCountry := resolveCountry m r.sourceAirport
  , destinationCountry := resolveCountry m r.destinationAirport }

/-- Embeds `RoutesService.groupRoutesBySourceCountry`: group by the source country,
skipping records whose source country is falsy (empty) or `"Unknown"`. -/
def groupRoutesBySourceCountry (rs : List RouteWithCountries) :
    List (String × List RouteWithCountries) :=
  groupByCountryKey (fun r => r.sourceCountry)
    (fun k => !(k == "") && !(k == "Unknown")) rs

/-- Embeds `RoutesService.getRoutesByTier`.  A list policy keeps the routes with
either endpoint country in the list; grouping is by source country. -/
def getRoutesByTier (m : List (String × String)) (routes : List Route) (tier : String) :
    Except String (List (String × List RouteWithCountries)) :=
  match tierConfig tier with
  | none => Except.error (invalidTierMsg tier)
  | some none => Except.ok (groupRoutesBySourceCountry (routes.map (getRouteWithCountries m)))
  | some (some cs) =>
    Except.ok (groupRoutesBySourceCountry
      ((routes.map (getRouteWithCountries m)).filter
        (fun r => cs.contains r.sourceCountry || cs.contains r.destinationCountry)))

/-- Embeds `RoutesService.getRoutesByCountry`: denies a country outside a list
policy, then matches either endpoint (disjunctive). -/
def getRoutesByCountry (m : List (String × String)) (routes : List Route)
    (tier country : String) : Except String (List RouteWithCountries) :=
  match tierConfig tier with
  | none => Except.error (invalidTierMsg tier)
  | some none =>
    Except.ok ((routes.map (getRouteWithCountries m)).filter
      (fun r => r.sourceCountry == country || r.destinationCountry == country))
  | some (some cs) =>
    if !(cs.contains country) then Except.error (notAccessibleMsg country tier)
    else Except.ok ((routes.map (getRouteWithCountries m)).filter
      (fun r => r.sourceCountry == country || r.destinationCountry == country))

/-- Embeds `RoutesService.getRoutesBetweenCountries`: a list policy requires both
sides in the list, then matches both endpoints (conjunctive). -/
def getRoutesBetweenCountries (m : List (String × String)) (routes : List Route)
    (tier src dst : String) : Except String (List RouteWithCountries) :=
  match tierConfig tier with
  | none => Except.error (invalidTierMsg tier)
  | some none =>
    Except.ok ((routes.map (getRouteWithCountries m)).filter
      (fun r => r.sourceCountry == src && r.destinationCountry == dst))
  | some (some cs) =>
    if !(cs.contains src) || !(cs.contains dst) then
      Except.error (pairDeniedMsg src dst)
    else Except.ok ((routes.map (getRouteWithCountries m)).filter
      (fun r => r.sourceCountry == src && r.destinationCountry == dst))

/-- One route's contribution to the `Set` accumulated in
`RoutesService.getAccessibleCountries`: add the source then the destination
country, each only when it is not `"Unknown"`. -/
def collectStep (acc : List String) (r : RouteWithCountries) : List String :=
  let acc1 := if r.sourceCountry = "Unknown" then acc else insertIfAbsent acc r.sourceCountry
  if r.destinationCountry = "Unknown" then acc1 else insertIfAbsent acc1 r.destinationCountry

/-- The `Set` accumulation in `RoutesService.getAccessibleCountries`, in
insertion order without duplicates. -/
def collectCountries (rs : List RouteWithCountries) : List String :=
  rs.foldl collectStep []

/-- Embeds `RoutesService.getAccessibleCountries`. -/
def getAccessibleCountries (m : List (String × String)) (routes : List Route)
    (tier : String) : Except String (List String) :=
  match tierConfig tier with
  | none => Except.error (invalidTierMsg tier)
  | some none =>
    Except.ok (sortStrings (collectCountries (routes.map (getRouteWithCountries m))))
  | some (some cs) => Except.ok cs

/-- The record returned by `RoutesService.getTierStatistics`. -/
structure TierStatistics where
  totalRoutes : Nat
  totalCountries : Nat
  countriesWithData : List String
deriving DecidableEq, Repr

/-- Embeds `RoutesService.getTierStatistics`. -/
def getTierStatistics (m : List (String × String)) (routes : List Route)
    (tier : String) : Except String TierStatistics :=
  match getRoutesByTier m routes tier with
  | Except.error e => Except.error e
  | Except.ok g =>
    Except.ok { totalRoutes := (g.map (fun kl => kl.2)).flatten.length
              , totalCountries := (g.map (fun kl => kl.1)).length
              , countriesWithData := sortStrings (g.map (fun kl => kl.1)) }

/-- Embeds `RoutesService.hasCountryAccess`. -/
def hasCountryAccess (tier country : String) : Bool :=
  match tierConfig tier with
  | none => false
  | some none => true
  | some (some cs) => cs.contains country

end RoutesService

/-- The `tier` claim of a JWT payload (`TokenPayload`). -/
structure TokenPayload where
  tier : String
deriving DecidableEq, Repr

/-- The outcome of `jwt.verify` for a given token, abstracting the
signature/expiry cryptography of the external `jsonwebtoken` library:
a decoded payload, or one of the error classes the code distinguishes. -/
inductive JwtOutcome where
  | valid (payload : TokenPayload)
  | expired
  | malformed
  | notBefore
deriving DecidableEq, Repr

/-- Embeds `TokenValidationResult` as `JwtManager.verifyToken` builds it (the
redundant `tier` field, set only alongside `payload`, is omitted). -/
structure TokenValidationResult where
  isValid : Bool
  payload : Option TokenPayload
  errMsg : Option String
deriving DecidableEq, Repr

/-- The closed `UserTier` enumeration's values. -/
def userTierValues : List String := ["free", "pro", "elite"]

/-- Embeds `JwtManager.verifyToken`, over an abstract `jwt.verify` outcome. -/
def verifyToken (decode : String → JwtOutcome) (token : String) : TokenValidationResult :=
  if token = "" then { isValid := false, payload := none, errMsg := some "No token provided" }
  else
    match decode token with
    | JwtOutcome.valid p =>
      if userTierValues.contains p.tier then
        { isValid := true, payload := some p, errMsg := none }
      else { isValid := false, payload := none, errMsg := some "Invalid tier in token" }
    | JwtOutcome.expired =>
      { isValid := false, payload := none, errMsg := some "Token has expired" }
    | JwtOutcome.malformed =>
      { isValid := false, payload := none, errMsg := some "Invalid token" }
    | JwtOutcome.notBefore =>
      { isValid := false, payload := none, errMsg := some "Token not active yet" }

/-- Embeds `JwtManager.getTierFeatures` (with its `|| []` default). -/
def getTierFeatures (tier : String) : List String :=
  if tier = "free" then ["basic_access"]
  else if tier = "pro" then ["basic_access", "pro_features"]
  else if tier = "elite" then ["basic_access", "pro_features", "elite_features"]
  else []

/-- What the `requireFeature` middleware does with a request: send a 401
(carrying `validation.error`), send a 403, or call `next()`. -/
inductive MiddlewareOutcome where
  | unauthorized (message : String)
  | forbidden (message : String)
  | continueToHandler
deriving DecidableEq, Repr

/-- The middleware's token extraction from the `Authorization` header:
`authHeader?.startsWith('Bearer ') ? authHeader.slice(7) : null`,
modelled on the character list. -/
def parseBearer (authHeader : Option String) : Option String :=
  match authHeader with
  | none => none
  | some h =>
    if h.toList.take 7 = "Bearer ".toList then some (String.mk (h.toList.drop 7))
    else none

/-- The `requireFeature` middleware, applied to the request's
`Authorization` header. -/
def requireFeature (decode : String → JwtOutcome) (featureId : String)
    (authHeader : Option String) : MiddlewareOutcome :=
  let featureCheck := fun (userTier : String) =>
    if (getTierFeatures userTier).contains featureId then MiddlewareOutcome.continueToHandler
    else MiddlewareOutcome.forbidden
      ("Feature " ++ quoteChar ++ featureId ++ quoteChar ++ " requires a higher tier")
  match parseBearer authHeader with
  | none => featureCheck "free"
  | some t =>
    if t = "" then featureCheck "free"
    else
      let validation := verifyToken decode t
      if validation.isValid then
        featureCheck (match validation.payload with
          | some p => if p.tier = "" then "free" else p.tier
          | none => "free")
      else MiddlewareOutcome.unauthorized (validation.errMsg.getD "")

/-- The routers' token extraction from the `Authorization` cookie:
`req.cookies.Authorization.split(' ')[1]`, with the undefined-index case
merged into the empty string (both are falsy to `verifyToken`). -/
def cookieToken (v : String) : String := ((splitOnChar ' ' v)[1]?).getD ""

/-- The routers' `getUserTier` helper, applied to the request's
`Authorization` cookie: absent or falsy cookie resolves to FREE, otherwise
the second space-separated part is verified and
`validation.payload?.tier || FREE` is returned. -/
def getUserTier (decode : String → JwtOutcome) (cookieAuth : Option String) : String :=
  match cookieAuth with
  | none => "free"
  | some v =>
    if v = "" then "free"
    else
      let validation := verifyToken decode (cookieToken v)
      match validation.payload with
      | none => "free"
      | some p => if p.tier = "" then "free" else p.tier

/-- Appending a filter run to an optional group list: the shape the grouping
`reduce` leaves a key's binding in (used only to state the fold lemmas). -/
def optApp {α : Type} (o : Option (List α)) (l : List α) : Option (List α) :=
  match o with
  | some a => some (a ++ l)
  | none => if l.isEmpty then none else some l

/-- Fixture: a two-entry airport-country index. -/
def tlvIndex : List (String × String) := [("TLV", "Israel"), ("JFK", "United States")]

/-- Fixture: a route between two airport codes. -/
def mkFixtureRoute (s d : String) : Route :=
  { airline := "LY", airlineId := "1", sourceAirport := s, sourceAirportId := "2",
    destinationAirport := d, destinationAirportId := "3", codeshare := "",
    stops := "0", equipment := "738" }

/-- Fixture: an airline in a given country. -/
def mkFixtureAirline (c : String) : Airline :=
  { name := "Sample Air", iata := "SA", icao := "SMP", callsign := "SAMPLE",
    country := c, active := "Y" }

/-- Fixture: an airport in a given country. -/
def mkFixtureAirport (c : String) : Airport :=
  { name := "Sample Field", city := "Sample City", country := c, iata := "SMP",
    icao := "SMPL", latitude := "0", longitude := "0", altitude := "0",
    timezone := "0", dst := "E", timezoneDb := "UTC" }

/-! ### Lemmas about the grouping `reduce` -/

theorem optApp_nil {α : Type} (o : Option (List α)) : optApp o [] = o := by
  cases o <;> simp [optApp]

theorem lookup_addToGroup_self {α : Type} (acc : List (String × List α)) (k : String) (r : α) :
    List.lookup k (addToGroup acc k r) = some ((List.lookup k acc).getD [] ++ [r]) := by
  induction acc with
  | nil => simp [addToGroup, List.lookup]
  | cons p rest ih =>
    obtain ⟨k2, l⟩ := p
    by_cases h : k2 = k
    · subst h
      simp [addToGroup, List.lookup]
    · have hbeq : (k == k2) = false := beq_eq_false_iff_ne.mpr (Ne.symm h)
      simp [addToGroup, h, List.lookup, hbeq, ih]

theorem lookup_addToGroup_ne {α : Type} (acc : List (String × List α)) {k k2 : String}
    (r : α) (h : k ≠ k2) : List.lookup k (addToGroup acc k2 r) = List.lookup k acc := by
  induction acc with
  | nil => simp [addToGroup, List.lookup, beq_eq_false_iff_ne.mpr h]
  | cons p rest ih =>
    obtain ⟨k1, l⟩ := p
    by_cases h1 : k1 = k2
    · subst h1
      simp [addToGroup, List.lookup, beq_eq_false_iff_ne.mpr h]
    · by_cases h2 : k = k1
      · subst h2
        simp [addToGroup, h1, List.lookup]
      · simp [addToGroup, h1, List.lookup, beq_eq_false_iff_ne.mpr h2, ih]

theorem map_fst_addToGroup {α : Type} (acc : List (String × List α)) (k : String) (r : α) :
    (addToGroup acc k r).map Prod.fst =
      if (List.lookup k acc).isSome then acc.map Prod.fst
      else acc.map Prod.fst ++ [k] := by
  induction acc with
  | nil => simp [addToGroup, List.lookup]
  | cons p rest ih =>
    obtain ⟨k2, l⟩ := p
    by_cases h : k2 = k
    · subst h
      simp [addToGroup, List.lookup]
    · have hbeq : (k == k2) = false := beq_eq_false_iff_ne.mpr (Ne.symm h)
      by_cases hrest : (List.lookup k rest).isSome
      · simp [addToGroup, h, List.lookup, hbeq, hrest, ih]
      · simp [addToGroup, h, List.lookup, hbeq, hrest, ih]

theorem lookup_isSome_iff_mem_keys {α : Type} (acc : List (String × List α)) (k : String) :
    (List.lookup k acc).isSome ↔ k ∈ acc.map Prod.fst := by
  induction acc with
  | nil => simp [List.lookup]
  | cons p rest ih =>
    obtain ⟨k2, l⟩ := p
    by_cases h : k = k2
    · subst h
      simp [List.lookup]
    · simp [List.lookup, beq_eq_false_iff_ne.mpr h, ih, h]

theorem nodup_keys_addToGroup {α : Type} (acc : List (String × List α)) (k : String) (r : α)
    (h : (acc.map Prod.fst).Nodup) : ((addToGroup acc k r).map Prod.fst).Nodup := by
  rw [map_fst_addToGroup]
  by_cases hs : (List.lookup k acc).isSome
  · simpa [hs] using h
  · have hnot : k ∉ acc.map Prod.fst := by
      intro hmem
      exact hs ((lookup_isSome_iff_mem_keys acc k).mpr hmem)
    simp only [hs, if_false]
    refine List.nodup_append.mpr ⟨h, by simp, ?_⟩
    intro a ha hak
    rw [List.mem_singleton] at hak
    exact hnot (hak ▸ ha)

theorem lookup_foldl_groupStep {α : Type} (key : α → String) (keep : String → Bool)
    (k : String) (rs : List α) :
    ∀ acc : List (String × List α),
      List.lookup k (rs.foldl (groupStep key keep) acc) =
        if keep k then optApp (List.lookup k acc) (rs.filter (fun r => key r == k))
        else List.lookup k acc := by
  induction rs with
  | nil =>
    intro acc
    by_cases h : keep k <;> simp [h, optApp_nil]
  | cons r rs ih =>
    intro acc
    rw [List.foldl_cons, ih (groupStep key keep acc r)]
    by_cases hk : keep k = true
    · simp only [hk, if_true]
      by_cases hkr : key r = k
      · have hkeyr : keep (key r) = true := by rw [hkr]; exact hk
        have hstep : groupStep key keep acc r = addToGroup acc k r := by
          rw [groupStep, if_pos hkeyr, hkr]
        rw [hstep, lookup_addToGroup_self]
        have hbeq : (key r == k) = true := beq_iff_eq.mpr hkr
        have hfil : List.filter (fun x => key x == k) (r :: rs)
            = r :: List.filter (fun x => key x == k) rs := by
          simp [List.filter_cons, hbeq]
        rw [hfil]
        cases hacc : List.lookup k acc with
        | none => simp [optApp]
        | some a => simp [optApp, List.append_assoc]
      · have hbeq : (key r == k) = false := beq_eq_false_iff_ne.mpr hkr
        have hstep : List.lookup k (groupStep key keep acc r) = List.lookup k acc := by
          rw [groupStep]
          by_cases hkeyr : keep (key r) = true
          · rw [if_pos hkeyr, lookup_addToGroup_ne acc r (Ne.symm hkr)]
          · rw [if_neg hkeyr]
        have hfil : List.filter (fun x => key x == k) (r :: rs)
            = List.filter (fun x => key x == k) rs := by
          simp [List.filter_cons, hbeq]
        rw [hstep, hfil]
    · have hkf : keep k = false := by simpa using hk
      simp only [hkf, Bool.false_eq_true, if_false]
      rw [groupStep]
      by_cases hkeyr : keep (key r) = true
      · rw [if_pos hkeyr]
        have hne : key r ≠ k := by
          intro he
          rw [he, hkf] at hkeyr
          exact Bool.false_ne_true hkeyr
        exact lookup_addToGroup_ne acc r (Ne.symm hne)
      · rw [if_neg hkeyr]

theorem lookup_groupByCountryKey {α : Type} (key : α → String) (keep : String → Bool)
    (k : String) (rs : List α) :
    List.lookup k (groupByCountryKey key keep rs) =
      if keep k then optApp none (rs.filter (fun r => key r == k)) else none := by
  rw [groupByCountryKey, lookup_foldl_groupStep]
  simp [List.lookup]

theorem nodup_keys_foldl_groupStep {α : Type} (key : α → String) (keep : String → Bool)
    (rs : List α) :
    ∀ acc : List (String × List α), (acc.map Prod.fst).Nodup →
      ((rs.foldl (groupStep key keep) acc).map Prod.fst).Nodup := by
  induction rs with
  | nil => intro acc h; simpa using h
  | cons r rs ih =>
    intro acc h
    rw [List.foldl_cons]
    apply ih
    rw [groupStep]
    by_cases hk : keep (key r)
    · rw [if_pos hk]
      exact nodup_keys_addToGroup acc (key r) r h
    · rwa [if_neg hk]

theorem nodup_keys_groupByCountryKey {α : Type} (key : α → String) (keep : String → Bool)
    (rs : List α) : ((groupByCountryKey key keep rs).map Prod.fst).Nodup := by
  apply nodup_keys_foldl_groupStep
  simp

theorem mem_iff_lookup_of_nodup_keys {α : Type} {g : List (String × List α)}
    (h : (g.map Prod.fst).Nodup) (k : String) (l : List α) :
    (k, l) ∈ g ↔ List.lookup k g = some l := by
  induction g with
  | nil => simp [List.lookup]
  | cons p rest ih =>
    obtain ⟨k2, l2⟩ := p
    simp only [List.map_cons, List.nodup_cons] at h
    by_cases hk : k = k2
    · subst hk
      simp only [List.lookup, beq_self_eq_true]
      constructor
      · intro hmem
        rcases List.mem_cons.mp hmem with heq | hmem2
        · rw [Prod.mk.injEq] at heq
          simp [heq.2]
        · exact absurd (List.mem_map.mpr ⟨(k, l), hmem2, rfl⟩) h.1
      · intro hl
        simp only [Option.some.injEq] at hl
        exact List.mem_cons.mpr (Or.inl (by rw [hl]))
    · simp only [List.lookup, beq_eq_false_iff_ne.mpr hk]
      constructor
      · intro hmem
        rcases List.mem_cons.mp hmem with heq | hmem2
        · rw [Prod.mk.injEq] at heq
          exact absurd heq.1 hk
        · exact (ih h.2).mp hmem2
      · intro hl
        exact List.mem_cons.mpr (Or.inr ((ih h.2).mpr hl))

theorem groupByCountryKey_mem_elim {α : Type} {key : α → String} {keep : String → Bool}
    {rs : List α} {kl : String × List α} (h : kl ∈ groupByCountryKey key keep rs) :
    keep kl.1 = true ∧ kl.2 = rs.filter (fun r => key r == kl.1) ∧ kl.2 ≠ [] := by
  have hlk : List.lookup kl.1 (groupByCountryKey key keep rs) = some kl.2 :=
    (mem_iff_lookup_of_nodup_keys (nodup_keys_groupByCountryKey key keep rs) kl.1 kl.2).mp
      (by exact h)
  rw [lookup_groupByCountryKey] at hlk
  by_cases hk : keep kl.1
  · rw [if_pos hk] at hlk
    rw [optApp] at hlk
    by_cases he : (rs.filter (fun r => key r == kl.1)).isEmpty
    · simp [he] at hlk
    · simp only [he, if_false, Option.some.injEq, Bool.false_eq_true] at hlk
      refine ⟨hk, hlk.symm, ?_⟩
      rw [← hlk]
      intro hnil
      rw [hnil] at he
      simp at he
  · rw [if_neg hk] at hlk
    exact absurd hlk (by simp)

theorem groupByCountryKey_mem_intro {α : Type} {key : α → String} {keep : String → Bool}
    {rs : List α} {r : α} (hr : r ∈ rs) (hk : keep (key r) = true) :
    (key r, rs.filter (fun x => key x == key r)) ∈ groupByCountryKey key keep rs ∧
      r ∈ rs.filter (fun x => key x == key r) := by
  have hfil : r ∈ rs.filter (fun x => key x == key r) :=
    List.mem_filter.mpr ⟨hr, by simp⟩
  have hne : ¬ (rs.filter (fun x => key x == key r)).isEmpty := by
    rw [List.isEmpty_iff]
    exact List.ne_nil_of_mem hfil
  have hlk : List.lookup (key r) (groupByCountryKey key keep rs) =
      some (rs.filter (fun x => key x == key r)) := by
    rw [lookup_groupByCountryKey, if_pos hk, optApp]
    simp [hne]
  exact ⟨(mem_iff_lookup_of_nodup_keys (nodup_keys_groupByCountryKey key keep rs) _ _).mpr hlk,
    hfil⟩

/-! ### Lemmas about the string sort -/

theorem charLt_trans {a b c : Char} (h1 : charLt a b = true) (h2 : charLt b c = true) :
    charLt a c = true := by
  simp only [charLt, decide_eq_true_eq] at *
  exact Nat.lt_trans h1 h2

theorem char_eq_of_toNat_eq {a b : Char} (h : a.val.toNat = b.val.toNat) : a = b :=
  Char.ext (UInt32.toNat.inj h)

theorem charsLe_total (as bs : List Char) : charsLe as bs = true ∨ charsLe bs as = true := by
  induction as generalizing bs with
  | nil => left; rfl
  | cons a as ih =>
    cases bs with
    | nil => right; rfl
    | cons b bs =>
      by_cases hab : a = b
      · subst hab
        simpa [charsLe] using ih bs
      · have hba : b ≠ a := Ne.symm hab
        have hne : a.val.toNat ≠ b.val.toNat := fun he => hab (char_eq_of_toNat_eq he)
        simp only [charsLe, hab, hba, if_false, charLt, decide_eq_true_eq]
        omega

theorem charsLe_trans {as bs cs : List Char} (h1 : charsLe as bs = true)
    (h2 : charsLe bs cs = true) : charsLe as cs = true := by
  induction as generalizing bs cs with
  | nil => rfl
  | cons a as ih =>
    cases bs with
    | nil => simp [charsLe] at h1
    | cons b bs =>
      cases cs with
      | nil => simp [charsLe] at h2
      | cons c cs =>
        by_cases hab : a = b
        · subst hab
          rw [charsLe, if_pos rfl] at h1
          by_cases hbc : a = c
          · subst hbc
            rw [charsLe, if_pos rfl] at h2
            rw [charsLe, if_pos rfl]
            exact ih h1 h2
          · rw [charsLe, if_neg hbc] at h2
            rw [charsLe, if_neg hbc]
            exact h2
        · rw [charsLe, if_neg hab] at h1
          by_cases hbc : b = c
          · subst hbc
            rw [charsLe, if_neg hab]
            exact h1
          · rw [charsLe, if_neg hbc] at h2
            by_cases hac : a = c
            · subst hac
              simp only [charLt, decide_eq_true_eq] at h1 h2
              omega
            · rw [charsLe, if_neg hac]
              exact charLt_trans h1 h2

theorem strLe_total (x y : String) : strLe x y = true ∨ strLe y x = true :=
  charsLe_total x.toList y.toList

theorem strLe_trans {x y z : String} (h1 : strLe x y = true) (h2 : strLe y z = true) :
    strLe x z = true :=
  charsLe_trans h1 h2

theorem perm_insertSorted (c : String) (l : List String) :
    (insertSorted c l).Perm (c :: l) := by
  induction l with
  | nil => rfl
  | cons d l ih =>
    rw [insertSorted]
    by_cases h : strLe c d = true
    · rw [if_pos h]
    · rw [if_neg h]
      exact (ih.cons d).trans (List.Perm.swap c d l)

theorem mem_insertSorted {c x : String} {l : List String} :
    x ∈ insertSorted c l ↔ x = c ∨ x ∈ l := by
  rw [(perm_insertSorted c l).mem_iff, List.mem_cons]

theorem pairwise_insertSorted (c : String) (l : List String)
    (h : l.Pairwise (fun a b => strLe a b = true)) :
    (insertSorted c l).Pairwise (fun a b => strLe a b = true) := by
  induction l with
  | nil => simp [insertSorted]
  | cons d l ih =>
    rw [List.pairwise_cons] at h
    rw [insertSorted]
    by_cases hcd : strLe c d = true
    · rw [if_pos hcd]
      refine List.pairwise_cons.mpr ⟨?_, List.pairwise_cons.mpr h⟩
      intro x hx
      rcases List.mem_cons.mp hx with he | hm
      · rw [he]; exact hcd
      · exact strLe_trans hcd (h.1 x hm)
    · rw [if_neg hcd]
      have hdc : strLe d c = true := (strLe_total c d).resolve_left hcd
      refine List.pairwise_cons.mpr ⟨?_, ih h.2⟩
      intro x hx
      rcases mem_insertSorted.mp hx with he | hm
      · rw [he]; exact hdc
      · exact h.1 x hm

theorem sortStrings_cons (c : String) (l : List String) :
    sortStrings (c :: l) = insertSorted c (sortStrings l) := rfl

theorem perm_sortStrings (l : List String) : (sortStrings l).Perm l := by
  induction l with
  | nil => rfl
  | cons c l ih =>
    rw [sortStrings_cons]
    exact (perm_insertSorted c (sortStrings l)).trans (ih.cons c)

theorem pairwise_sortStrings (l : List String) :
    (sortStrings l).Pairwise (fun a b => strLe a b = true) := by
  induction l with
  | nil => simp [sortStrings]
  | cons c l ih =>
    rw [sortStrings_cons]
    exact pairwise_insertSorted c (sortStrings l) ih

theorem nodup_sortStrings {l : List String} (h : l.Nodup) : (sortStrings l).Nodup :=
  (perm_sortStrings l).symm.nodup h

theorem mem_sortStrings {l : List String} {x : String} : x ∈ sortStrings l ↔ x ∈ l :=
  (perm_sortStrings l).mem_iff

theorem length_sortStrings (l : List String) : (sortStrings l).length = l.length :=
  (perm_sortStrings l).length_eq

/-! ### Lemmas about the `Set` dedup -/

theorem mem_insertIfAbsent {acc : List String} {c x : String} :
    x ∈ insertIfAbsent acc c ↔ x ∈ acc ∨ x = c := by
  rw [insertIfAbsent]
  by_cases h : acc.contains c
  · have hc : c ∈ acc := by simpa using h
    rw [if_pos h]
    constructor
    · exact Or.inl
    · rintro (hm | he)
      · exact hm
      · rw [he]; exact hc
  · rw [if_neg h]
    simp

theorem nodup_insertIfAbsent {acc : List String} (c : String) (h : acc.Nodup) :
    (insertIfAbsent acc c).Nodup := by
  rw [insertIfAbsent]
  by_cases hc : acc.contains c
  · rwa [if_pos hc]
  · rw [if_neg hc]
    have : c ∉ acc := by simpa using hc
    refine List.nodup_append.mpr ⟨h, by simp, ?_⟩
    intro a ha hac
    rw [List.mem_singleton] at hac
    exact this (hac ▸ ha)

theorem mem_foldl_insertIfAbsent (l : List String) :
    ∀ (acc : List String) (x : String),
      x ∈ l.foldl insertIfAbsent acc ↔ x ∈ acc ∨ x ∈ l := by
  induction l with
  | nil => intro acc x; simp
  | cons c l ih =>
    intro acc x
    rw [List.foldl_cons, ih]
    rw [mem_insertIfAbsent]
    simp only [List.mem_cons]
    tauto

theorem mem_setDedup {l : List String} {x : String} : x ∈ setDedup l ↔ x ∈ l := by
  rw [setDedup, mem_foldl_insertIfAbsent]
  simp

theorem nodup_foldl_insertIfAbsent (l : List String) :
    ∀ acc : List String, acc.Nodup → (l.foldl insertIfAbsent acc).Nodup := by
  induction l with
  | nil => intro acc h; simpa using h
  | cons c l ih =>
    intro acc h
    rw [List.foldl_cons]
    exact ih _ (nodup_insertIfAbsent c h)

theorem nodup_setDedup (l : List String) : (setDedup l).Nodup :=
  nodup_foldl_insertIfAbsent l [] (by simp)

/-! ### Lemmas about the route country `Set` accumulation -/

theorem collectStep_eq (acc : List String) (r : RouteWithCountries) :
    RoutesService.collectStep acc r =
      if r.destinationCountry = "Unknown" then
        (if r.sourceCountry = "Unknown" then acc else insertIfAbsent acc r.sourceCountry)
      else insertIfAbsent
        (if r.sourceCountry = "Unknown" then acc else insertIfAbsent acc r.sourceCountry)
        r.destinationCountry := rfl

theorem mem_collectStep {acc : List String} {r : RouteWithCountries} {x : String} :
    x ∈ RoutesService.collectStep acc r ↔
      x ∈ acc ∨ (x ≠ "Unknown" ∧ (r.sourceCountry = x ∨ r.destinationCountry = x)) := by
  rw [collectStep_eq]
  by_cases hs : r.sourceCountry = "Unknown" <;> by_cases hd : r.destinationCountry = "Unknown"
  · rw [if_pos hd, if_pos hs]
    constructor
    · exact Or.inl
    · rintro (hm | ⟨hne, he | he⟩)
      · exact hm
      · exact absurd (he.symm.trans hs) hne
      · exact absurd (he.symm.trans hd) hne
  · rw [if_neg hd, if_pos hs, mem_insertIfAbsent]
    constructor
    · rintro (hm | he)
      · exact Or.inl hm
      · exact Or.inr ⟨fun hxu => hd (he.symm.trans hxu), Or.inr he.symm⟩
    · rintro (hm | ⟨hne, he | he⟩)
      · exact Or.inl hm
      · exact absurd (he.symm.trans hs) hne
      · exact Or.inr he.symm
  · rw [if_pos hd, if_neg hs, mem_insertIfAbsent]
    constructor
    · rintro (hm | he)
      · exact Or.inl hm
      · exact Or.inr ⟨fun hxu => hs (he.symm.trans hxu), Or.inl he.symm⟩
    · rintro (hm | ⟨hne, he | he⟩)
      · exact Or.inl hm
      · exact Or.inr he.symm
      · exact absurd (he.symm.trans hd) hne
  · rw [if_neg hd, if_neg hs, mem_insertIfAbsent, mem_insertIfAbsent]
    constructor
    · rintro ((hm | he) | he)
      · exact Or.inl hm
      · exact Or.inr ⟨fun hxu => hs (he.symm.trans hxu), Or.inl he.symm⟩
      · exact Or.inr ⟨fun hxu => hd (he.symm.trans hxu), Or.inr he.symm⟩
    · rintro (hm | ⟨hne, he | he⟩)
      · exact Or.inl (Or.inl hm)
      · exact Or.inl (Or.inr he.symm)
      · exact Or.inr he.symm

theorem nodup_collectStep {acc : List String} (r : RouteWithCountries) (h : acc.Nodup) :
    (RoutesService.collectStep acc r).Nodup := by
  rw [collectStep_eq]
  by_cases hs : r.sourceCountry = "Unknown" <;> by_cases hd : r.destinationCountry = "Unknown"
  · rw [if_pos hd, if_pos hs]; exact h
  · rw [if_neg hd, if_pos hs]; exact nodup_insertIfAbsent _ h
  · rw [if_pos hd, if_neg hs]; exact nodup_insertIfAbsent _ h
  · rw [if_neg hd, if_neg hs]; exact nodup_insertIfAbsent _ (nodup_insertIfAbsent _ h)

theorem mem_foldl_collectStep (rs : List RouteWithCountries) :
    ∀ (acc : List String) (x : String),
      x ∈ rs.foldl RoutesService.collectStep acc ↔
        x ∈ acc ∨ (x ≠ "Unknown" ∧ ∃ r ∈ rs, r.sourceCountry = x ∨ r.destinationCountry = x) := by
  induction rs with
  | nil => intro acc x; simp
  | cons r rs ih =>
    intro acc x
    rw [List.foldl_cons, ih, mem_collectStep]
    constructor
    · rintro ((hm | ⟨hne, hor⟩) | ⟨hne, ⟨r2, hr2, hor⟩⟩)
      · exact Or.inl hm
      · exact Or.inr ⟨hne, ⟨r, List.mem_cons_self r rs, hor⟩⟩
      · exact Or.inr ⟨hne, ⟨r2, List.mem_cons.mpr (Or.inr hr2), hor⟩⟩
    · rintro (hm | ⟨hne, ⟨r2, hr2, hor⟩⟩)
      · exact Or.inl (Or.inl hm)
      · rcases List.mem_cons.mp hr2 with he | hm2
        · exact Or.inl (Or.inr ⟨hne, he ▸ hor⟩)
        · exact Or.inr ⟨hne, ⟨r2, hm2, hor⟩⟩

theorem mem_collectCountries {rs : List RouteWithCountries} {x : String} :
    x ∈ RoutesService.collectCountries rs ↔
      x ≠ "Unknown" ∧ ∃ r ∈ rs, r.sourceCountry = x ∨ r.destinationCountry = x := by
  rw [RoutesService.collectCountries, mem_foldl_collectStep]
  simp

theorem nodup_collectCountries (rs : List RouteWithCountries) : (RoutesService.collectCountries rs).Nodup := by
  rw [RoutesService.collectCountries]
  have : ∀ acc : List String, acc.Nodup → (rs.foldl RoutesService.collectStep acc).Nodup := by
    induction rs with
    | nil => intro acc h; simpa using h
    | cons r rs ih =>
      intro acc h
      rw [List.foldl_cons]
      exact ih _ (nodup_collectStep r h)
  exact this [] (by simp)

/-! ### Service-level helper lemmas -/

theorem getAirlinesByTier_ok (airlines : List Airline) {tier : String}
    {cfg : Option (List String)} (h : tierConfig tier = some cfg) :
    AirlinesService.getAirlinesByTier airlines tier =
      Except.ok (AirlinesService.groupAirlinesByCountry
        (match cfg with
         | none => airlines
         | some cs => airlines.filter (fun a => cs.contains a.country))) := by
  cases cfg <;> simp [AirlinesService.getAirlinesByTier, h]

theorem getAirportsByTier_ok (airports : List Airport) {tier : String}
    {cfg : Option (List String)} (h : tierConfig tier = some cfg) :
    AirportsService.getAirportsByTier airports tier =
      Except.ok (AirportsService.groupAirportsByCountry
        (match cfg with
         | none => airports
         | some cs => airports.filter (fun a => cs.contains a.country))) := by
  cases cfg <;> simp [AirportsService.getAirportsByTier, h]

theorem getRoutesByTier_ok (m : List (String × String)) (routes : List Route)
    {tier : String} {cfg : Option (List String)} (h : tierConfig tier = some cfg) :
    RoutesService.getRoutesByTier m routes tier =
      Except.ok (RoutesService.groupRoutesBySourceCountry
        (match cfg with
         | none => routes.map (RoutesService.getRouteWithCountries m)
         | some cs => (routes.map (RoutesService.getRouteWithCountries m)).filter
             (fun r => cs.contains r.sourceCountry || cs.contains r.destinationCountry))) := by
  cases cfg <;> simp [RoutesService.getRoutesByTier, h]

theorem airlineStats_eq {airlines : List Airline} {tier : String}
    {g : List (String × List Airline)}
    (h : AirlinesService.getAirlinesByTier airlines tier = Except.ok g) :
    AirlinesService.getTierStatistics airlines tier =
      Except.ok { totalAirlines := (g.map (fun kl => kl.2)).flatten.length
                , totalCountries := (g.map (fun kl => kl.1)).length
                , countriesWithData := sortStrings (g.map (fun kl => kl.1)) } := by
  simp [AirlinesService.getTierStatistics, h]

theorem airportStats_eq {airports : List Airport} {tier : String}
    {g : List (String × List Airport)}
    (h : AirportsService.getAirportsByTier airports tier = Except.ok g) :
    AirportsService.getTierStatistics airports tier =
      Except.ok { totalAirports := (g.map (fun kl => kl.2)).flatten.length
                , totalCountries := (g.map (fun kl => kl.1)).length
                , countriesWithData := sortStrings (g.map (fun kl => kl.1)) } := by
  simp [AirportsService.getTierStatistics, h]

theorem routeStats_eq {m : List (String × String)} {routes : List Route} {tier : String}
    {g : List (String × List RouteWithCountries)}
    (h : RoutesService.getRoutesByTier m routes tier = Except.ok g) :
    RoutesService.getTierStatistics m routes tier =
      Except.ok { totalRoutes := (g.map (fun kl => kl.2)).flatten.length
                , totalCountries := (g.map (fun kl => kl.1)).length
                , countriesWithData := sortStrings (g.map (fun kl => kl.1)) } := by
  simp [RoutesService.getTierStatistics, h]

theorem stats_fields {α : Type} (g : List (String × List α)) :
    ((g.map (fun kl => kl.2)).flatten.length = (g.map (fun kl => kl.2.length)).sum) ∧
    ((g.map (fun kl => kl.1)).length = g.length) ∧
    List.Pairwise (fun a b => strLe a b = true) (sortStrings (g.map (fun kl => kl.1))) ∧
    (sortStrings (g.map (fun kl => kl.1))).Perm (g.map (fun kl => kl.1)) ∧
    ((g.map (fun kl => kl.1)).length = (sortStrings (g.map (fun kl => kl.1))).length) := by
  refine ⟨?_, by simp, pairwise_sortStrings _, perm_sortStrings _, (length_sortStrings _).symm⟩
  rw [List.length_flatten, List.map_map]
  rfl

theorem group_invariants {α : Type} {key : α → String} {keep : String → Bool}
    {input base : List α} (hsub : List.Sublist input base)
    (hkeep : ∀ k, keep k = true → k ≠ "") (kl : String × List α)
    (hkl : kl ∈ groupByCountryKey key keep input) :
    kl.1 ≠ "" ∧ kl.2 ≠ [] ∧ (∀ a ∈ kl.2, key a = kl.1) ∧ List.Sublist kl.2 base := by
  obtain ⟨hk, heq, hne⟩ := groupByCountryKey_mem_elim hkl
  refine ⟨hkeep _ hk, hne, ?_, ?_⟩
  · intro a ha
    rw [heq] at ha
    exact beq_iff_eq.mp (List.mem_filter.mp ha).2
  · rw [heq]
    exact (List.filter_sublist input).trans hsub

theorem verifyToken_payload_none {decode : String → JwtOutcome} {t : String}
    (h : (verifyToken decode t).isValid = false) :
    (verifyToken decode t).payload = none := by
  by_cases ht : t = ""
  · simp [verifyToken, ht]
  · cases hd : decode t with
    | valid p =>
      by_cases hp : p.tier ∈ userTierValues
      · exfalso
        simp [verifyToken, ht, hd, hp] at h
      · simp [verifyToken, ht, hd, hp]
    | expired => simp [verifyToken, ht, hd]
    | malformed => simp [verifyToken, ht, hd]
    | notBefore => simp [verifyToken, ht, hd]

/-! ### The claims -/

/-- Claim C5: for every country string, `hasCountryAccess` is true for the
unrestricted ELITE tier in all three services, and for the FREE and PRO
list policies it is true exactly when the country is literally present in
the configured list (case-sensitive exact string equality, no
normalization, no partial matching). -/
theorem claim_C5_has_country_access (c : String) :
    AirlinesService.hasCountryAccess "elite" c = true ∧
    AirportsService.hasCountryAccess "elite" c = true ∧
    RoutesService.hasCountryAccess "elite" c = true ∧
    (AirlinesService.hasCountryAccess "free" c = true ↔ c ∈ freeCountries) ∧
    (AirlinesService.hasCountryAccess "pro" c = true ↔ c ∈ proCountries) ∧
    (AirportsService.hasCountryAccess "free" c = true ↔ c ∈ freeCountries) ∧
    (AirportsService.hasCountryAccess "pro" c = true ↔ c ∈ proCountries) ∧
    (RoutesService.hasCountryAccess "free" c = true ↔ c ∈ freeCountries) ∧
    (RoutesService.hasCountryAccess "pro" c = true ↔ c ∈ proCountries) := by
  refine ⟨rfl, rfl, rfl, ?_, ?_, ?_, ?_, ?_, ?_⟩ <;>
    simp [AirlinesService.hasCountryAccess, AirportsService.hasCountryAccess,
      RoutesService.hasCountryAccess, tierConfig]

/-- Claim C3 counterexample: at the tier value `"enterprise"`, which is
absent from the policy table, `hasCountryAccess` does not fail with an
invalid-tier error — it silently returns the deny answer `false` — while
the same tier value makes `getAirlinesByTier` fail with `InvalidTier`. -/
theorem claim_C3_cex :
    tierConfig "enterprise" = none ∧
    AirlinesService.hasCountryAccess "enterprise" "Israel" = false ∧
    AirportsService.hasCountryAccess "enterprise" "Israel" = false ∧
    RoutesService.hasCountryAccess "enterprise" "Israel" = false ∧
    AirlinesService.getAirlinesByTier [] "enterprise"
      = Except.error (invalidTierMsg "enterprise") :=
  ⟨rfl, rfl, rfl, rfl, rfl⟩

/-- Claim C3 (amended): for every tier value absent from the policy table,
`byTier`, `byCountry`, `betweenCountries`, `accessibleCountries` and
`statistics` all fail with the `InvalidTier` error in all three services;
`hasCountryAccess`, however, does not fail — it silently returns `false`. -/
theorem claim_C3_invalid_tier (tier c src dst : String)
    (airlines : List Airline) (airports : List Airport)
    (m : List (String × String)) (routes : List Route)
    (h : tierConfig tier = none) :
    AirlinesService.getAirlinesByTier airlines tier = Except.error (invalidTierMsg tier) ∧
    AirlinesService.getAirlinesByCountry airlines tier c = Except.error (invalidTierMsg tier) ∧
    AirlinesService.getAccessibleCountries airlines tier = Except.error (invalidTierMsg tier) ∧
    AirlinesService.getTierStatistics airlines tier = Except.error (invalidTierMsg tier) ∧
    AirportsService.getAirportsByTier airports tier = Except.error (invalidTierMsg tier) ∧
    AirportsService.getAirportsByCountry airports tier c = Except.error (invalidTierMsg tier) ∧
    AirportsService.getAccessibleCountries airports tier = Except.error (invalidTierMsg tier) ∧
    AirportsService.getTierStatistics airports tier = Except.error (invalidTierMsg tier) ∧
    RoutesService.getRoutesByTier m routes tier = Except.error (invalidTierMsg tier) ∧
    RoutesService.getRoutesByCountry m routes tier c = Except.error (invalidTierMsg tier) ∧
    RoutesService.getRoutesBetweenCountries m routes tier src dst
      = Except.error (invalidTierMsg tier) ∧
    RoutesService.getAccessibleCountries m routes tier = Except.error (invalidTierMsg tier) ∧
    RoutesService.getTierStatistics m routes tier = Except.error (invalidTierMsg tier) ∧
    AirlinesService.hasCountryAccess tier c = false ∧
    AirportsService.hasCountryAccess tier c = false ∧
    RoutesService.hasCountryAccess tier c = false := by
  refine ⟨?_, ?_, ?_, ?_, ?_, ?_, ?_, ?_, ?_, ?_, ?_, ?_, ?_, ?_, ?_, ?_⟩ <;>
    simp [AirlinesService.getAirlinesByTier, AirlinesService.getAirlinesByCountry,
      AirlinesService.getAccessibleCountries, AirlinesService.getTierStatistics,
      AirportsService.getAirportsByTier, AirportsService.getAirportsByCountry,
      AirportsService.getAccessibleCountries, AirportsService.getTierStatistics,
      RoutesService.getRoutesByTier, RoutesService.getRoutesByCountry,
      RoutesService.getRoutesBetweenCountries, RoutesService.getAccessibleCountries,
      RoutesService.getTierStatistics, AirlinesService.hasCountryAccess,
      AirportsService.hasCountryAccess, RoutesService.hasCountryAccess, h]

/-- Witness for C3: the hypotheses hold at the concrete tier `"enterprise"`
with empty record sets. -/
theorem claim_C3_invalid_tier_witness :
    AirlinesService.getAirlinesByTier [] "enterprise"
        = Except.error (invalidTierMsg "enterprise") ∧
    AirlinesService.getAirlinesByCountry [] "enterprise" "Israel"
        = Except.error (invalidTierMsg "enterprise") ∧
    AirlinesService.getAccessibleCountries [] "enterprise"
        = Except.error (invalidTierMsg "enterprise") ∧
    AirlinesService.getTierStatistics [] "enterprise"
        = Except.error (invalidTierMsg "enterprise") ∧
    AirportsService.getAirportsByTier [] "enterprise"
        = Except.error (invalidTierMsg "enterprise") ∧
    AirportsService.getAirportsByCountry [] "enterprise" "Israel"
        = Except.error (invalidTierMsg "enterprise") ∧
    AirportsService.getAccessibleCountries [] "enterprise"
        = Except.error (invalidTierMsg "enterprise") ∧
    AirportsService.getTierStatistics [] "enterprise"
        = Except.error (invalidTierMsg "enterprise") ∧
    RoutesService.getRoutesByTier [] [] "enterprise"
        = Except.error (invalidTierMsg "enterprise") ∧
    RoutesService.getRoutesByCountry [] [] "enterprise" "Israel"
        = Except.error (invalidTierMsg "enterprise") ∧
    RoutesService.getRoutesBetweenCountries [] [] "enterprise" "Israel" "Israel"
        = Except.error (invalidTierMsg "enterprise") ∧
    RoutesService.getAccessibleCountries [] [] "enterprise"
        = Except.error (invalidTierMsg "enterprise") ∧
    RoutesService.getTierStatistics [] [] "enterprise"
        = Except.error (invalidTierMsg "enterprise") ∧
    AirlinesService.hasCountryAccess "enterprise" "Israel" = false ∧
    AirportsService.hasCountryAccess "enterprise" "Israel" = false ∧
    RoutesService.hasCountryAccess "enterprise" "Israel" = false :=
  claim_C3_invalid_tier "enterprise" "Israel" "Israel" "Israel" [] [] [] [] rfl

/-- Claim C9: because the ELITE policy is unrestricted,
`hasCountryAccess(ELITE, "Unknown")` is true, and
`getRoutesByCountry(ELITE, "Unknown")` returns exactly the routes whose
resolved source or destination country is `"Unknown"`; in particular every
such route's enriched record is in the returned list. -/
theorem claim_C9_unknown_country_retrievable :
    RoutesService.hasCountryAccess "elite" "Unknown" = true ∧
    (∀ (m : List (String × String)) (routes : List Route),
      RoutesService.getRoutesByCountry m routes "elite" "Unknown" =
        Except.ok ((routes.map (RoutesService.getRouteWithCountries m)).filter
          (fun r => r.sourceCountry == "Unknown" || r.destinationCountry == "Unknown"))) ∧
    (∀ (m : List (String × String)) (routes : List Route) (r : Route),
      r ∈ routes →
      ((RoutesService.getRouteWithCountries m r).sourceCountry = "Unknown" ∨
        (RoutesService.getRouteWithCountries m r).destinationCountry = "Unknown") →
      ∃ l, RoutesService.getRoutesByCountry m routes "elite" "Unknown" = Except.ok l ∧
        RoutesService.getRouteWithCountries m r ∈ l) := by
  refine ⟨rfl, fun m routes => rfl, ?_⟩
  intro m routes r hr hu
  refine ⟨_, rfl, ?_⟩
  refine List.mem_filter.mpr ⟨List.mem_map_of_mem _ hr, ?_⟩
  rcases hu with hu | hu <;> simp [hu]

/-- Claim C6: for every tier present in the policy table, `byCountry` fails
with the AccessDenied error `Country '<country>' is not accessible with
<tier> tier` exactly when that service's `hasCountryAccess` is false, and
otherwise returns exactly the records whose country field equals the given
country (for routes: whose resolved source or destination country equals
it, disjunctively). -/
theorem claim_C6_by_country (tier country : String) (cfg : Option (List String))
    (airlines : List Airline) (airports : List Airport)
    (m : List (String × String)) (routes : List Route)
    (h : tierConfig tier = some cfg) :
    (AirlinesService.hasCountryAccess tier country = false →
      AirlinesService.getAirlinesByCountry airlines tier country
        = Except.error (notAccessibleMsg country tier)) ∧
    (AirlinesService.hasCountryAccess tier country = true →
      AirlinesService.getAirlinesByCountry airlines tier country
        = Except.ok (airlines.filter (fun a => a.country == country))) ∧
    (AirportsService.hasCountryAccess tier country = false →
      AirportsService.getAirportsByCountry airports tier country
        = Except.error (notAccessibleMsg country tier)) ∧
    (AirportsService.hasCountryAccess tier country = true →
      AirportsService.getAirportsByCountry airports tier country
        = Except.ok (airports.filter (fun a => a.country == country))) ∧
    (RoutesService.hasCountryAccess tier country = false →
      RoutesService.getRoutesByCountry m routes tier country
        = Except.error (notAccessibleMsg country tier)) ∧
    (RoutesService.hasCountryAccess tier country = true →
      RoutesService.getRoutesByCountry m routes tier country
        = Except.ok ((routes.map (RoutesService.getRouteWithCountries m)).filter
            (fun r => r.sourceCountry == country || r.destinationCountry == country))) := by
  cases cfg with
  | none =>
    refine ⟨?_, ?_, ?_, ?_, ?_, ?_⟩ <;> intro hacc <;>
      simp_all [AirlinesService.hasCountryAccess, AirportsService.hasCountryAccess,
        RoutesService.hasCountryAccess, AirlinesService.getAirlinesByCountry,
        AirportsService.getAirportsByCountry, RoutesService.getRoutesByCountry, h]
  | some cs =>
    by_cases hc : cs.contains country = true <;>
      refine ⟨?_, ?_, ?_, ?_, ?_, ?_⟩ <;> intro hacc <;>
      simp_all [AirlinesService.hasCountryAccess, AirportsService.hasCountryAccess,
        RoutesService.hasCountryAccess, AirlinesService.getAirlinesByCountry,
        AirportsService.getAirportsByCountry, RoutesService.getRoutesByCountry, h]

/-- Witness for C6 at tier FREE and country Israel with one-record data
sets: the hypothesis holds and the accessible branch returns the filtered
records. -/
theorem claim_C6_by_country_witness :
    (AirlinesService.hasCountryAccess "free" "Israel" = false →
      AirlinesService.getAirlinesByCountry [mkFixtureAirline "Israel"] "free" "Israel"
        = Except.error (notAccessibleMsg "Israel" "free")) ∧
    (AirlinesService.hasCountryAccess "free" "Israel" = true →
      AirlinesService.getAirlinesByCountry [mkFixtureAirline "Israel"] "free" "Israel"
        = Except.ok ([mkFixtureAirline "Israel"].filter (fun a => a.country == "Israel"))) ∧
    (AirportsService.hasCountryAccess "free" "Israel" = false →
      AirportsService.getAirportsByCountry [mkFixtureAirport "Israel"] "free" "Israel"
        = Except.error (notAccessibleMsg "Israel" "free")) ∧
    (AirportsService.hasCountryAccess "free" "Israel" = true →
      AirportsService.getAirportsByCountry [mkFixtureAirport "Israel"] "free" "Israel"
        = Except.ok ([mkFixtureAirport "Israel"].filter (fun a => a.country == "Israel"))) ∧
    (RoutesService.hasCountryAccess "free" "Israel" = false →
      RoutesService.getRoutesByCountry tlvIndex [mkFixtureRoute "TLV" "JFK"] "free" "Israel"
        = Except.error (notAccessibleMsg "Israel" "free")) ∧
    (RoutesService.hasCountryAccess "free" "Israel" = true →
      RoutesService.getRoutesByCountry tlvIndex [mkFixtureRoute "TLV" "JFK"] "free" "Israel"
        = Except.ok (([mkFixtureRoute "TLV" "JFK"].map
            (RoutesService.getRouteWithCountries tlvIndex)).filter
            (fun r => r.sourceCountry == "Israel" || r.destinationCountry == "Israel"))) :=
  claim_C6_by_country "free" "Israel" (some freeCountries)
    [mkFixtureAirline "Israel"] [mkFixtureAirport "Israel"]
    tlvIndex [mkFixtureRoute "TLV" "JFK"] rfl

/-- Claim C2: for every tier present in the policy table,
`getRoutesBetweenCountries` fails with the pair AccessDenied error exactly
when not both endpoints pass `hasCountryAccess` (so never for ELITE), and
on success returns exactly the routes whose resolved source country equals
the source argument AND whose resolved destination country equals the
destination argument; in particular FREE Israel→Israel succeeds and FREE
Israel→United States is denied. -/
theorem claim_C2_between_countries (m : List (String × String)) (routes : List Route)
    (tier src dst : String) (cfg : Option (List String))
    (h : tierConfig tier = some cfg) :
    ((RoutesService.getRoutesBetweenCountries m routes tier src dst
        = Except.error (pairDeniedMsg src dst)) ↔
      ¬(RoutesService.hasCountryAccess tier src = true ∧
        RoutesService.hasCountryAccess tier dst = true)) ∧
    (RoutesService.hasCountryAccess tier src = true →
      RoutesService.hasCountryAccess tier dst = true →
      RoutesService.getRoutesBetweenCountries m routes tier src dst
        = Except.ok ((routes.map (RoutesService.getRouteWithCountries m)).filter
            (fun r => r.sourceCountry == src && r.destinationCountry == dst))) ∧
    RoutesService.getRoutesBetweenCountries m routes "free" "Israel" "Israel"
      = Except.ok ((routes.map (RoutesService.getRouteWithCountries m)).filter
          (fun r => r.sourceCountry == "Israel" && r.destinationCountry == "Israel")) ∧
    RoutesService.getRoutesBetweenCountries m routes "free" "Israel" "United States"
      = Except.error (pairDeniedMsg "Israel" "United States") := by
  refine ⟨?_, ?_, rfl, rfl⟩
  · cases cfg with
    | none =>
      simp [RoutesService.getRoutesBetweenCountries, RoutesService.hasCountryAccess, h]
    | some cs =>
      by_cases hs : cs.contains src = true <;> by_cases hd : cs.contains dst = true <;>
        simp [RoutesService.getRoutesBetweenCountries, RoutesService.hasCountryAccess,
          h, hs, hd]
  · intro hsrc hdst
    cases cfg with
    | none => simp [RoutesService.getRoutesBetweenCountries, h]
    | some cs =>
      simp only [RoutesService.hasCountryAccess, h] at hsrc hdst
      have hs2 : src ∈ cs := by simpa using hsrc
      have hd2 : dst ∈ cs := by simpa using hdst
      simp [RoutesService.getRoutesBetweenCountries, h, hs2, hd2]

/-- Witness for C2 at tier FREE with a one-route Israel→Israel data set. -/
theorem claim_C2_between_countries_witness :
    ((RoutesService.getRoutesBetweenCountries tlvIndex [mkFixtureRoute "TLV" "TLV"]
        "free" "Israel" "Israel" = Except.error (pairDeniedMsg "Israel" "Israel")) ↔
      ¬(RoutesService.hasCountryAccess "free" "Israel" = true ∧
        RoutesService.hasCountryAccess "free" "Israel" = true)) ∧
    (RoutesService.hasCountryAccess "free" "Israel" = true →
      RoutesService.hasCountryAccess "free" "Israel" = true →
      RoutesService.getRoutesBetweenCountries tlvIndex [mkFixtureRoute "TLV" "TLV"]
          "free" "Israel" "Israel"
        = Except.ok (([mkFixtureRoute "TLV" "TLV"].map
            (RoutesService.getRouteWithCountries tlvIndex)).filter
            (fun r => r.sourceCountry == "Israel" && r.destinationCountry == "Israel"))) ∧
    RoutesService.getRoutesBetweenCountries tlvIndex [mkFixtureRoute "TLV" "TLV"]
        "free" "Israel" "Israel"
      = Except.ok (([mkFixtureRoute "TLV" "TLV"].map
          (RoutesService.getRouteWithCountries tlvIndex)).filter
          (fun r => r.sourceCountry == "Israel" && r.destinationCountry == "Israel")) ∧
    RoutesService.getRoutesBetweenCountries tlvIndex [mkFixtureRoute "TLV" "TLV"]
        "free" "Israel" "United States"
      = Except.error (pairDeniedMsg "Israel" "United States") :=
  claim_C2_between_countries tlvIndex [mkFixtureRoute "TLV" "TLV"]
    "free" "Israel" "Israel" (some freeCountries) rfl

/-- Claim C1: for a tier with a list policy, `getRoutesByTier` groups
solely by source country: a route whose resolved destination country is in
the tier's list but whose source country is not still appears in the
output, grouped under its source country, when that source country is
neither "Unknown" nor empty, and is entirely absent from the output
mapping when its source country is "Unknown" or empty. -/
theorem claim_C1_group_by_source (m : List (String × String)) (routes : List Route)
    (tier : String) (cs : List String) (r : Route)
    (htier : tierConfig tier = some (some cs))
    (hr : r ∈ routes)
    (hdst : cs.contains (RoutesService.getRouteWithCountries m r).destinationCountry = true)
    (hsrc : cs.contains (RoutesService.getRouteWithCountries m r).sourceCountry = false) :
    ∃ g, RoutesService.getRoutesByTier m routes tier = Except.ok g ∧
      ((RoutesService.getRouteWithCountries m r).sourceCountry ≠ "Unknown" ∧
          (RoutesService.getRouteWithCountries m r).sourceCountry ≠ "" →
        RoutesService.getRouteWithCountries m r ∈
          (List.lookup (RoutesService.getRouteWithCountries m r).sourceCountry g).getD []) ∧
      ((RoutesService.getRouteWithCountries m r).sourceCountry = "Unknown" ∨
          (RoutesService.getRouteWithCountries m r).sourceCountry = "" →
        ∀ kl ∈ g, RoutesService.getRouteWithCountries m r ∉ kl.2) := by
  have hmem : RoutesService.getRouteWithCountries m r ∈
      (routes.map (RoutesService.getRouteWithCountries m)).filter
        (fun x => cs.contains x.sourceCountry || cs.contains x.destinationCountry) := by
    refine List.mem_filter.mpr ⟨List.mem_map_of_mem _ hr, ?_⟩
    have hd2 : (RoutesService.getRouteWithCountries m r).destinationCountry ∈ cs := by
      simpa using hdst
    simp [hd2]
  refine ⟨RoutesService.groupRoutesBySourceCountry
      ((routes.map (RoutesService.getRouteWithCountries m)).filter
        (fun x => cs.contains x.sourceCountry || cs.contains x.destinationCountry)),
    ?_, ?_, ?_⟩
  · rw [getRoutesByTier_ok m routes htier]
  · rintro ⟨hu, he⟩
    have hkeep : (!((RoutesService.getRouteWithCountries m r).sourceCountry == "")
        && !((RoutesService.getRouteWithCountries m r).sourceCountry == "Unknown")) = true := by
      simp [he, hu]
    have hfil2 : RoutesService.getRouteWithCountries m r ∈
        ((routes.map (RoutesService.getRouteWithCountries m)).filter
          (fun x => cs.contains x.sourceCountry || cs.contains x.destinationCountry)).filter
          (fun x => x.sourceCountry
            == (RoutesService.getRouteWithCountries m r).sourceCountry) :=
      List.mem_filter.mpr ⟨hmem, by simp⟩
    have hlk := lookup_groupByCountryKey (fun x : RouteWithCountries => x.sourceCountry)
        (fun k => !(k == "") && !(k == "Unknown"))
        (RoutesService.getRouteWithCountries m r).sourceCountry
        ((routes.map (RoutesService.getRouteWithCountries m)).filter
          (fun x => cs.contains x.sourceCountry || cs.contains x.destinationCountry))
    rw [if_pos hkeep] at hlk
    have hne : ¬ (((routes.map (RoutesService.getRouteWithCountries m)).filter
        (fun x => cs.contains x.sourceCountry || cs.contains x.destinationCountry)).filter
        (fun x => x.sourceCountry
          == (RoutesService.getRouteWithCountries m r).sourceCountry)).isEmpty = true := by
      rw [List.isEmpty_iff]
      exact List.ne_nil_of_mem hfil2
    simp only [optApp] at hlk
    rw [if_neg hne] at hlk
    show RoutesService.getRouteWithCountries m r ∈
      (List.lookup (RoutesService.getRouteWithCountries m r).sourceCountry
        (groupByCountryKey (fun x : RouteWithCountries => x.sourceCountry)
          (fun k => !(k == "") && !(k == "Unknown"))
          ((routes.map (RoutesService.getRouteWithCountries m)).filter
            (fun x => cs.contains x.sourceCountry
              || cs.contains x.destinationCountry)))).getD []
    rw [hlk]
    simpa using hfil2
  · intro hu kl hkl hmem2
    have hkl2 : kl ∈ groupByCountryKey (fun x : RouteWithCountries => x.sourceCountry)
        (fun k => !(k == "") && !(k == "Unknown"))
        ((routes.map (RoutesService.getRouteWithCountries m)).filter
          (fun x => cs.contains x.sourceCountry || cs.contains x.destinationCountry)) := hkl
    obtain ⟨hk, heq, -⟩ := groupByCountryKey_mem_elim hkl2
    rw [heq] at hmem2
    have hks : (RoutesService.getRouteWithCountries m r).sourceCountry = kl.1 :=
      beq_iff_eq.mp (List.mem_filter.mp hmem2).2
    rw [← hks] at hk
    rcases hu with hu | hu <;> rw [hu] at hk <;> simp at hk

/-- Witness for C1: a single JFK→TLV route under tier FREE — the
destination resolves to Israel (in FREE's list), the source to United
States (not in the list), and the route appears grouped under United
States. -/
theorem claim_C1_group_by_source_witness :
    ∃ g, RoutesService.getRoutesByTier tlvIndex [mkFixtureRoute "JFK" "TLV"] "free"
        = Except.ok g ∧
      ((RoutesService.getRouteWithCountries tlvIndex
            (mkFixtureRoute "JFK" "TLV")).sourceCountry ≠ "Unknown" ∧
          (RoutesService.getRouteWithCountries tlvIndex
            (mkFixtureRoute "JFK" "TLV")).sourceCountry ≠ "" →
        RoutesService.getRouteWithCountries tlvIndex (mkFixtureRoute "JFK" "TLV") ∈
          (List.lookup (RoutesService.getRouteWithCountries tlvIndex
            (mkFixtureRoute "JFK" "TLV")).sourceCountry g).getD []) ∧
      ((RoutesService.getRouteWithCountries tlvIndex
            (mkFixtureRoute "JFK" "TLV")).sourceCountry = "Unknown" ∨
          (RoutesService.getRouteWithCountries tlvIndex
            (mkFixtureRoute "JFK" "TLV")).sourceCountry = "" →
        ∀ kl ∈ g,
          RoutesService.getRouteWithCountries tlvIndex (mkFixtureRoute "JFK" "TLV")
            ∉ kl.2) :=
  claim_C1_group_by_source tlvIndex [mkFixtureRoute "JFK" "TLV"] "free" freeCountries
    (mkFixtureRoute "JFK" "TLV") rfl (by simp) rfl rfl

/-- Claim C10: in every mapping returned by `byTier`, every group key is a
non-empty string, every group is a non-empty list, every record listed
under key `k` has its country field (source country for routes) equal to
`k`, and every group is a sublist (hence in the original relative order)
of the underlying record list. -/
theorem claim_C10_group_invariants (tier : String) (cfg : Option (List String))
    (airlines : List Airline) (airports : List Airport)
    (m : List (String × String)) (routes : List Route)
    (g1 : List (String × List Airline)) (g2 : List (String × List Airport))
    (g3 : List (String × List RouteWithCountries))
    (htier : tierConfig tier = some cfg)
    (h1 : AirlinesService.getAirlinesByTier airlines tier = Except.ok g1)
    (h2 : AirportsService.getAirportsByTier airports tier = Except.ok g2)
    (h3 : RoutesService.getRoutesByTier m routes tier = Except.ok g3) :
    (∀ kl ∈ g1, kl.1 ≠ "" ∧ kl.2 ≠ [] ∧ (∀ a ∈ kl.2, a.country = kl.1) ∧
        List.Sublist kl.2 airlines) ∧
    (∀ kl ∈ g2, kl.1 ≠ "" ∧ kl.2 ≠ [] ∧ (∀ a ∈ kl.2, a.country = kl.1) ∧
        List.Sublist kl.2 airports) ∧
    (∀ kl ∈ g3, kl.1 ≠ "" ∧ kl.2 ≠ [] ∧ (∀ x ∈ kl.2, x.sourceCountry = kl.1) ∧
        List.Sublist kl.2 (routes.map (RoutesService.getRouteWithCountries m))) := by
  rw [getAirlinesByTier_ok airlines htier] at h1
  rw [getAirportsByTier_ok airports htier] at h2
  rw [getRoutesByTier_ok m routes htier] at h3
  have e1 := Except.ok.inj h1
  have e2 := Except.ok.inj h2
  have e3 := Except.ok.inj h3
  subst e1
  subst e2
  subst e3
  cases cfg with
  | none =>
    exact ⟨fun kl hkl => group_invariants (List.Sublist.refl airlines)
        (fun k hk => by simpa using hk) kl hkl,
      fun kl hkl => group_invariants (List.Sublist.refl airports)
        (fun k hk => by simpa using hk) kl hkl,
      fun kl hkl => group_invariants (List.Sublist.refl _)
        (fun k hk => by simp at hk; exact hk.1) kl hkl⟩
  | some cs =>
    exact ⟨fun kl hkl => group_invariants (List.filter_sublist airlines)
        (fun k hk => by simpa using hk) kl hkl,
      fun kl hkl => group_invariants (List.filter_sublist airports)
        (fun k hk => by simpa using hk) kl hkl,
      fun kl hkl => group_invariants (List.filter_sublist _)
        (fun k hk => by simp at hk; exact hk.1) kl hkl⟩

/-- Witness for C10 at tier FREE with one-record data sets. -/
theorem claim_C10_group_invariants_witness :
    (∀ kl ∈ [("Israel", [mkFixtureAirline "Israel"])],
      kl.1 ≠ "" ∧ kl.2 ≠ [] ∧ (∀ a ∈ kl.2, a.country = kl.1) ∧
        List.Sublist kl.2 [mkFixtureAirline "Israel"]) ∧
    (∀ kl ∈ [("Israel", [mkFixtureAirport "Israel"])],
      kl.1 ≠ "" ∧ kl.2 ≠ [] ∧ (∀ a ∈ kl.2, a.country = kl.1) ∧
        List.Sublist kl.2 [mkFixtureAirport "Israel"]) ∧
    (∀ kl ∈ [("Israel",
        [RoutesService.getRouteWithCountries tlvIndex (mkFixtureRoute "TLV" "JFK")])],
      kl.1 ≠ "" ∧ kl.2 ≠ [] ∧ (∀ x ∈ kl.2, x.sourceCountry = kl.1) ∧
        List.Sublist kl.2 ([mkFixtureRoute "TLV" "JFK"].map
          (RoutesService.getRouteWithCountries tlvIndex))) :=
  claim_C10_group_invariants "free" (some freeCountries)
    [mkFixtureAirline "Israel"] [mkFixtureAirport "Israel"]
    tlvIndex [mkFixtureRoute "TLV" "JFK"]
    [("Israel", [mkFixtureAirline "Israel"])]
    [("Israel", [mkFixtureAirport "Israel"])]
    [("Israel", [RoutesService.getRouteWithCountries tlvIndex (mkFixtureRoute "TLV" "JFK")])]
    rfl rfl rfl rfl

/-- Claim C8: for every tier in the policy table, `statistics` is derived
from `byTier`: the total record count is the sum of the group sizes, the
country count is the number of (distinct) group keys, and
`countriesWithData` is the sorted list of those keys; in particular
`totalCountries` always equals `countriesWithData.length`, in all three
services. -/
theorem claim_C8_statistics (tier : String) (cfg : Option (List String))
    (airlines : List Airline) (airports : List Airport)
    (m : List (String × String)) (routes : List Route)
    (htier : tierConfig tier = some cfg) :
    (∃ g s, AirlinesService.getAirlinesByTier airlines tier = Except.ok g ∧
      AirlinesService.getTierStatistics airlines tier = Except.ok s ∧
      s.totalAirlines = (g.map (fun kl => kl.2.length)).sum ∧
      s.totalCountries = g.length ∧
      (g.map (fun kl => kl.1)).Nodup ∧
      s.countriesWithData = sortStrings (g.map (fun kl => kl.1)) ∧
      List.Pairwise (fun a b => strLe a b = true) s.countriesWithData ∧
      s.countriesWithData.Perm (g.map (fun kl => kl.1)) ∧
      s.totalCountries = s.countriesWithData.length) ∧
    (∃ g s, AirportsService.getAirportsByTier airports tier = Except.ok g ∧
      AirportsService.getTierStatistics airports tier = Except.ok s ∧
      s.totalAirports = (g.map (fun kl => kl.2.length)).sum ∧
      s.totalCountries = g.length ∧
      (g.map (fun kl => kl.1)).Nodup ∧
      s.countriesWithData = sortStrings (g.map (fun kl => kl.1)) ∧
      List.Pairwise (fun a b => strLe a b = true) s.countriesWithData ∧
      s.countriesWithData.Perm (g.map (fun kl => kl.1)) ∧
      s.totalCountries = s.countriesWithData.length) ∧
    (∃ g s, RoutesService.getRoutesByTier m routes tier = Except.ok g ∧
      RoutesService.getTierStatistics m routes tier = Except.ok s ∧
      s.totalRoutes = (g.map (fun kl => kl.2.length)).sum ∧
      s.totalCountries = g.length ∧
      (g.map (fun kl => kl.1)).Nodup ∧
      s.countriesWithData = sortStrings (g.map (fun kl => kl.1)) ∧
      List.Pairwise (fun a b => strLe a b = true) s.countriesWithData ∧
      s.countriesWithData.Perm (g.map (fun kl => kl.1)) ∧
      s.totalCountries = s.countriesWithData.length) := by
  cases cfg with
  | none =>
    refine ⟨?_, ?_, ?_⟩
    · have hb : AirlinesService.getAirlinesByTier airlines tier
          = Except.ok (AirlinesService.groupAirlinesByCountry airlines) :=
        getAirlinesByTier_ok airlines htier
      obtain ⟨hflat, hlen, hpair, hperm, hslen⟩ :=
        stats_fields (AirlinesService.groupAirlinesByCountry airlines)
      exact ⟨_, _, hb, airlineStats_eq hb, hflat, hlen,
        nodup_keys_groupByCountryKey _ _ _, rfl, pairwise_sortStrings _,
        perm_sortStrings _, hslen⟩
    · have hb : AirportsService.getAirportsByTier airports tier
          = Except.ok (AirportsService.groupAirportsByCountry airports) :=
        getAirportsByTier_ok airports htier
      obtain ⟨hflat, hlen, hpair, hperm, hslen⟩ :=
        stats_fields (AirportsService.groupAirportsByCountry airports)
      exact ⟨_, _, hb, airportStats_eq hb, hflat, hlen,
        nodup_keys_groupByCountryKey _ _ _, rfl, pairwise_sortStrings _,
        perm_sortStrings _, hslen⟩
    · have hb : RoutesService.getRoutesByTier m routes tier
          = Except.ok (RoutesService.groupRoutesBySourceCountry
              (routes.map (RoutesService.getRouteWithCountries m))) :=
        getRoutesByTier_ok m routes htier
      obtain ⟨hflat, hlen, hpair, hperm, hslen⟩ :=
        stats_fields (RoutesService.groupRoutesBySourceCountry
          (routes.map (RoutesService.getRouteWithCountries m)))
      exact ⟨_, _, hb, routeStats_eq hb, hflat, hlen,
        nodup_keys_groupByCountryKey _ _ _, rfl, pairwise_sortStrings _,
        perm_sortStrings _, hslen⟩
  | some cs =>
    refine ⟨?_, ?_, ?_⟩
    · have hb : AirlinesService.getAirlinesByTier airlines tier
          = Except.ok (AirlinesService.groupAirlinesByCountry
              (airlines.filter (fun a => cs.contains a.country))) :=
        getAirlinesByTier_ok airlines htier
      obtain ⟨hflat, hlen, hpair, hperm, hslen⟩ :=
        stats_fields (AirlinesService.groupAirlinesByCountry
          (airlines.filter (fun a => cs.contains a.country)))
      exact ⟨_, _, hb, airlineStats_eq hb, hflat, hlen,
        nodup_keys_groupByCountryKey _ _ _, rfl, pairwise_sortStrings _,
        perm_sortStrings _, hslen⟩
    · have hb : AirportsService.getAirportsByTier airports tier
          = Except.ok (AirportsService.groupAirportsByCountry
              (airports.filter (fun a => cs.contains a.country))) :=
        getAirportsByTier_ok airports htier
      obtain ⟨hflat, hlen, hpair, hperm, hslen⟩ :=
        stats_fields (AirportsService.groupAirportsByCountry
          (airports.filter (fun a => cs.contains a.country)))
      exact ⟨_, _, hb, airportStats_eq hb, hflat, hlen,
        nodup_keys_groupByCountryKey _ _ _, rfl, pairwise_sortStrings _,
        perm_sortStrings _, hslen⟩
    · have hb : RoutesService.getRoutesByTier m routes tier
          = Except.ok (RoutesService.groupRoutesBySourceCountry
              ((routes.map (RoutesService.getRouteWithCountries m)).filter
                (fun r => cs.contains r.sourceCountry
                  || cs.contains r.destinationCountry))) :=
        getRoutesByTier_ok m routes htier
      obtain ⟨hflat, hlen, hpair, hperm, hslen⟩ :=
        stats_fields (RoutesService.groupRoutesBySourceCountry
          ((routes.map (RoutesService.getRouteWithCountries m)).filter
            (fun r => cs.contains r.sourceCountry || cs.contains r.destinationCountry)))
      exact ⟨_, _, hb, routeStats_eq hb, hflat, hlen,
        nodup_keys_groupByCountryKey _ _ _, rfl, pairwise_sortStrings _,
        perm_sortStrings _, hslen⟩

/-- Witness for C8 at tier FREE with one-record data sets. -/
theorem claim_C8_statistics_witness :
    (∃ g s, AirlinesService.getAirlinesByTier [mkFixtureAirline "Israel"] "free"
        = Except.ok g ∧
      AirlinesService.getTierStatistics [mkFixtureAirline "Israel"] "free" = Except.ok s ∧
      s.totalAirlines = (g.map (fun kl => kl.2.length)).sum ∧
      s.totalCountries = g.length ∧
      (g.map (fun kl => kl.1)).Nodup ∧
      s.countriesWithData = sortStrings (g.map (fun kl => kl.1)) ∧
      List.Pairwise (fun a b => strLe a b = true) s.countriesWithData ∧
      s.countriesWithData.Perm (g.map (fun kl => kl.1)) ∧
      s.totalCountries = s.countriesWithData.length) ∧
    (∃ g s, AirportsService.getAirportsByTier [mkFixtureAirport "Israel"] "free"
        = Except.ok g ∧
      AirportsService.getTierStatistics [mkFixtureAirport "Israel"] "free" = Except.ok s ∧
      s.totalAirports = (g.map (fun kl => kl.2.length)).sum ∧
      s.totalCountries = g.length ∧
      (g.map (fun kl => kl.1)).Nodup ∧
      s.countriesWithData = sortStrings (g.map (fun kl => kl.1)) ∧
      List.Pairwise (fun a b => strLe a b = true) s.countriesWithData ∧
      s.countriesWithData.Perm (g.map (fun kl => kl.1)) ∧
      s.totalCountries = s.countriesWithData.length) ∧
    (∃ g s, RoutesService.getRoutesByTier tlvIndex [mkFixtureRoute "TLV" "JFK"] "free"
        = Except.ok g ∧
      RoutesService.getTierStatistics tlvIndex [mkFixtureRoute "TLV" "JFK"] "free"
        = Except.ok s ∧
      s.totalRoutes = (g.map (fun kl => kl.2.length)).sum ∧
      s.totalCountries = g.length ∧
      (g.map (fun kl => kl.1)).Nodup ∧
      s.countriesWithData = sortStrings (g.map (fun kl => kl.1)) ∧
      List.Pairwise (fun a b => strLe a b = true) s.countriesWithData ∧
      s.countriesWithData.Perm (g.map (fun kl => kl.1)) ∧
      s.totalCountries = s.countriesWithData.length) :=
  claim_C8_statistics "free" (some freeCountries)
    [mkFixtureAirline "Israel"] [mkFixtureAirport "Israel"]
    tlvIndex [mkFixtureRoute "TLV" "JFK"] rfl

/-- Claim C7 counterexample: the airlines service's
`accessibleCountries(ELITE)` does not exclude `"Unknown"` — a loaded
airline record whose country field is literally `"Unknown"` appears in the
output. -/
theorem claim_C7_cex :
    AirlinesService.getAccessibleCountries [mkFixtureAirline "Unknown"] "elite"
        = Except.ok ["Unknown"] ∧
    "Unknown" ∈ (["Unknown"] : List String) :=
  ⟨rfl, by simp⟩

/-- Claim C7 (amended): for FREE and PRO (list policies) every service
returns the configured list verbatim, not re-sorted; for ELITE the routes
service returns the sorted duplicate-free list of resolved endpoint
countries with "Unknown" excluded, while the airlines and airports
services return the sorted duplicate-free list of all country values
actually present, with no "Unknown" exclusion. -/
theorem claim_C7_accessible_countries (tier : String) (cs : List String)
    (airlines : List Airline) (airports : List Airport)
    (m : List (String × String)) (routes : List Route)
    (h : tierConfig tier = some (some cs)) :
    AirlinesService.getAccessibleCountries airlines tier = Except.ok cs ∧
    AirportsService.getAccessibleCountries airports tier = Except.ok cs ∧
    RoutesService.getAccessibleCountries m routes tier = Except.ok cs ∧
    (∃ l, AirlinesService.getAccessibleCountries airlines "elite" = Except.ok l ∧
      List.Pairwise (fun a b => strLe a b = true) l ∧ l.Nodup ∧
      (∀ c, c ∈ l ↔ ∃ a ∈ airlines, a.country = c)) ∧
    (∃ l, AirportsService.getAccessibleCountries airports "elite" = Except.ok l ∧
      List.Pairwise (fun a b => strLe a b = true) l ∧ l.Nodup ∧
      (∀ c, c ∈ l ↔ ∃ a ∈ airports, a.country = c)) ∧
    (∃ l, RoutesService.getAccessibleCountries m routes "elite" = Except.ok l ∧
      List.Pairwise (fun a b => strLe a b = true) l ∧ l.Nodup ∧
      (∀ c, c ∈ l ↔ c ≠ "Unknown" ∧ ∃ r ∈ routes,
        (RoutesService.getRouteWithCountries m r).sourceCountry = c ∨
        (RoutesService.getRouteWithCountries m r).destinationCountry = c)) := by
  refine ⟨by simp [AirlinesService.getAccessibleCountries, h],
          by simp [AirportsService.getAccessibleCountries, h],
          by simp [RoutesService.getAccessibleCountries, h], ?_, ?_, ?_⟩
  · refine ⟨_, rfl, pairwise_sortStrings _, nodup_sortStrings (nodup_setDedup _), ?_⟩
    intro c
    rw [mem_sortStrings, mem_setDedup, List.mem_map]
  · refine ⟨_, rfl, pairwise_sortStrings _, nodup_sortStrings (nodup_setDedup _), ?_⟩
    intro c
    rw [mem_sortStrings, mem_setDedup, List.mem_map]
  · refine ⟨_, rfl, pairwise_sortStrings _,
      nodup_sortStrings (nodup_collectCountries _), ?_⟩
    intro c
    rw [mem_sortStrings, mem_collectCountries]
    constructor
    · rintro ⟨hne, x, hx, hor⟩
      obtain ⟨r, hr, rfl⟩ := List.mem_map.mp hx
      exact ⟨hne, r, hr, hor⟩
    · rintro ⟨hne, r, hr, hor⟩
      exact ⟨hne, _, List.mem_map_of_mem _ hr, hor⟩

/-- Witness for C7 at tier PRO with one-record data sets. -/
theorem claim_C7_accessible_countries_witness :
    AirlinesService.getAccessibleCountries [mkFixtureAirline "Israel"] "pro"
      = Except.ok proCountries ∧
    AirportsService.getAccessibleCountries [mkFixtureAirport "Israel"] "pro"
      = Except.ok proCountries ∧
    RoutesService.getAccessibleCountries tlvIndex [mkFixtureRoute "TLV" "JFK"] "pro"
      = Except.ok proCountries ∧
    (∃ l, AirlinesService.getAccessibleCountries [mkFixtureAirline "Israel"] "elite"
        = Except.ok l ∧
      List.Pairwise (fun a b => strLe a b = true) l ∧ l.Nodup ∧
      (∀ c, c ∈ l ↔ ∃ a ∈ [mkFixtureAirline "Israel"], a.country = c)) ∧
    (∃ l, AirportsService.getAccessibleCountries [mkFixtureAirport "Israel"] "elite"
        = Except.ok l ∧
      List.Pairwise (fun a b => strLe a b = true) l ∧ l.Nodup ∧
      (∀ c, c ∈ l ↔ ∃ a ∈ [mkFixtureAirport "Israel"], a.country = c)) ∧
    (∃ l, RoutesService.getAccessibleCountries tlvIndex [mkFixtureRoute "TLV" "JFK"] "elite"
        = Except.ok l ∧
      List.Pairwise (fun a b => strLe a b = true) l ∧ l.Nodup ∧
      (∀ c, c ∈ l ↔ c ≠ "Unknown" ∧ ∃ r ∈ [mkFixtureRoute "TLV" "JFK"],
        (RoutesService.getRouteWithCountries tlvIndex r).sourceCountry = c ∨
        (RoutesService.getRouteWithCountries tlvIndex r).destinationCountry = c)) :=
  claim_C7_accessible_countries "pro" proCountries
    [mkFixtureAirline "Israel"] [mkFixtureAirport "Israel"]
    tlvIndex [mkFixtureRoute "TLV" "JFK"] rfl

/-- Claim C4 counterexample: at a data-access call site guarded by the
`requireFeature` middleware, a present-but-invalid bearer token in the
`Authorization` header does NOT proceed as tier FREE — the middleware
responds 401 instead of calling the handler. -/
theorem claim_C4_cex :
    requireFeature (fun _ => JwtOutcome.malformed) "basic_access" (some "Bearer xyz")
      = MiddlewareOutcome.unauthorized "Invalid token" ∧
    requireFeature (fun _ => JwtOutcome.malformed) "basic_access" (some "Bearer xyz")
      ≠ MiddlewareOutcome.continueToHandler :=
  ⟨rfl, by decide⟩

/-- Claim C4 (amended): an absent credential resolves to tier FREE with no
error; an invalid credential presented in the `Authorization` cookie is
treated like an absent one by the routers' `getUserTier` (the request
proceeds as FREE); but a present, syntactically well-formed bearer token
in the `Authorization` header that fails verification is rejected by the
`requireFeature` middleware with a 401 error response carrying the
verification error. -/
theorem claim_C4_credential_resolution (decode : String → JwtOutcome)
    (featureId hdr t v : String)
    (htok : parseBearer (some hdr) = some t)
    (htne : t ≠ "")
    (hbad : (verifyToken decode t).isValid = false) :
    getUserTier decode none = "free" ∧
    ((verifyToken decode (cookieToken v)).isValid = false →
      getUserTier decode (some v) = "free") ∧
    requireFeature decode featureId (some hdr)
      = MiddlewareOutcome.unauthorized ((verifyToken decode t).errMsg.getD "") := by
  refine ⟨rfl, ?_, ?_⟩
  · intro hv
    simp only [getUserTier]
    by_cases hv0 : v = ""
    · rw [if_pos hv0]
    · rw [if_neg hv0]
      have hp := verifyToken_payload_none hv
      simp [hp]
  · simp only [requireFeature, htok]
    rw [if_neg htne, hbad]
    simp

/-- Witness for C4 with an expired bearer token. -/
theorem claim_C4_credential_resolution_witness :
    getUserTier (fun _ => JwtOutcome.expired) none = "free" ∧
    ((verifyToken (fun _ => JwtOutcome.expired)
        (cookieToken "Bearer tok")).isValid = false →
      getUserTier (fun _ => JwtOutcome.expired) (some "Bearer tok") = "free") ∧
    requireFeature (fun _ => JwtOutcome.expired) "basic_access" (some "Bearer tok")
      = MiddlewareOutcome.unauthorized
          ((verifyToken (fun _ => JwtOutcome.expired) "tok").errMsg.getD "") :=
  claim_C4_credential_resolution (fun _ => JwtOutcome.expired) "basic_access"
    "Bearer tok" "tok" "Bearer tok" (by decide) (by decide) (by decide)

end SecuredAir
